import Mathlib

/-!
Verification of `o2family_info.py`: a shallow embedding of its HTML
line-identifier scanner (`MyHTMLParser`), of the save/exit logic of `main`,
and proofs of the specified properties.
-/

namespace O2FamilyInfo

/-- Events delivered by Python's streaming `html.parser.HTMLParser` to the
handler callbacks of `MyHTMLParser`: a start tag with its attribute pairs,
an end tag, and a chunk of text data.  Attribute values are modelled as
present strings (the scanner only inspects valued `href` attributes). -/
inductive HtmlEvent where
  | starttag (tag : String) (attrs : List (String × String))
  | endtag (tag : String)
  | data (s : String)
deriving DecidableEq, Repr

/-- Python `str.isnumeric()` restricted to ASCII digits: true iff the string
is nonempty and every character is a digit.  (Python also accepts other
Unicode numerics; the portal's identifiers and phone numbers are ASCII.) -/
def pyIsNumeric (s : String) : Bool :=
  !s.toList.isEmpty && s.toList.all Char.isDigit

/-- Helper for `pySplit`: walk the characters, cutting at each separator;
`acc` holds the reversed characters of the piece currently being read. -/
def pySplitAux (sep : Char) : List Char → List Char → List String
  | [], acc => [String.mk acc.reverse]
  | c :: rest, acc =>
    if c = sep then String.mk acc.reverse :: pySplitAux sep rest []
    else pySplitAux sep rest (c :: acc)

/-- Python `str.split(sep)` for a one-character separator: split at every
occurrence of `sep`, keeping empty pieces (`"/a".split("/") == ["", "a"]`). -/
def pySplit (sep : Char) (s : String) : List String :=
  pySplitAux sep s.toList []

/-- Python `str.strip()` on ASCII whitespace: drop whitespace characters
from both ends. -/
def pyStrip (s : String) : String :=
  String.mk
    (((s.toList.dropWhile Char.isWhitespace).reverse.dropWhile
        Char.isWhitespace).reverse)

/-- Python `str.startswith(pre)`. -/
def pyStartsWith (s pre : String) : Bool :=
  pre.toList.isPrefixOf s.toList

/-- Python dict assignment `d[k] = v`: replace the value in place if the key
is present, otherwise append the new pair. -/
def dictInsert (m : List (String × String)) (k v : String) :
    List (String × String) :=
  if m.any (fun p => p.1 = k) then
    m.map (fun p => if p.1 = k then (k, v) else p)
  else
    m ++ [(k, v)]

/-- Python dict lookup `d.get(k)`. -/
def dictLookup (m : List (String × String)) (k : String) : Option String :=
  (m.find? (fun p => p.1 = k)).map (fun p => p.2)

/-- Class-level state of `MyHTMLParser`: the attribute `matches = {}` is
evaluated once at class-definition time and the one resulting dict is
mutated in place (`self.«matches»[data_strip] = ...`, never rebound), so it is
shared by all instances of the class. -/
structure ClassState where
  «matches» : List (String × String)
deriving DecidableEq, Repr

/-- The dict created when the class body `matches = {}` is executed. -/
def initClassState : ClassState := { «matches» := [] }

/-- Per-instance state of `MyHTMLParser`: `self.suspected = ...` rebinds an
instance attribute, so `suspected` is private to each instance;  before the
first assignment a read falls back to the class attribute `None`. -/
structure MyHTMLParser where
  suspected : Option String
deriving DecidableEq, Repr

/-- Constructing a `MyHTMLParser()` instance: `suspected` reads as `None`;
the shared class-level `matches` dict is untouched. -/
def MyHTMLParser.new : MyHTMLParser := { suspected := none }

/-- The third `/`-delimited segment of an href, `attr[1].split("/")[2]`;
whenever the href starts with `"/nastaveni-tarifu-a-sluzeb/"` the split has
at least three parts, so the default is never taken on the code's path. -/
def idSegment (href : String) : String :=
  (pySplit '/' href).getD 2 ""

/-- `MyHTMLParser.handle_starttag`: clear `suspected`, then, for an `a` tag,
scan the attribute pairs; each valued `href` whose value starts with
`"/nastaveni-tarifu-a-sluzeb/"` and whose third path segment is numeric sets
`suspected` to that segment (a later matching attribute overwrites, a
non-matching one is skipped by `continue`). -/
def MyHTMLParser.handle_starttag (p : MyHTMLParser) (tag : String)
    (attrs : List (String × String)) : MyHTMLParser :=
  let p0 : MyHTMLParser := { p with suspected := none }
  if tag = "a" then
    attrs.foldl (fun q attr =>
      if attr.1 ≠ "href" then q
      else if ¬ (pyStartsWith attr.2 "/nastaveni-tarifu-a-sluzeb/") then q
      else if ¬ pyIsNumeric (idSegment attr.2) then q
      else { q with suspected := some (idSegment attr.2) }) p0
  else p0

/-- `MyHTMLParser.handle_endtag`: any end tag clears `suspected`. -/
def MyHTMLParser.handle_endtag (p : MyHTMLParser) (tag : String) :
    MyHTMLParser :=
  let _ := tag
  { p with suspected := none }

/-- `MyHTMLParser.handle_data`: while a candidate is pending, strip the text
chunk; if the stripped text is numeric, record it in the shared `matches`
dict against the candidate and clear the candidate; otherwise do nothing. -/
def MyHTMLParser.handle_data (p : MyHTMLParser) (cs : ClassState)
    (data : String) : ClassState × MyHTMLParser :=
  match p.suspected with
  | none => (cs, p)
  | some susp =>
    let ds := pyStrip data
    if ¬ pyIsNumeric ds then (cs, p)
    else ({ «matches» := dictInsert cs.«matches» ds susp },
          { p with suspected := none })

/-- Dispatch one parser event to the corresponding handler. -/
def processEvent (st : ClassState × MyHTMLParser) (e : HtmlEvent) :
    ClassState × MyHTMLParser :=
  match e with
  | .starttag tag attrs => (st.1, st.2.handle_starttag tag attrs)
  | .endtag tag => (st.1, st.2.handle_endtag tag)
  | .data s => st.2.handle_data st.1 s

/-- `parser.feed(html)`: deliver the document's events in order. -/
def feed (st : ClassState × MyHTMLParser) (evs : List HtmlEvent) :
    ClassState × MyHTMLParser :=
  evs.foldl processEvent st

/-- The event stream of the fragment
`<a href="/nastaveni-tarifu-a-sluzeb/123/x">456</a>`. -/
def frag456 : List HtmlEvent :=
  [.starttag "a" [("href", "/nastaveni-tarifu-a-sluzeb/123/x")],
   .data "456", .endtag "a"]

/-- A flat filesystem abstraction for the save step of `main`: the list of
existing files as (path, contents) pairs, each path at most once. -/
structure FS where
  files : List (String × String)
deriving DecidableEq, Repr

/-- `os.path.exists(p)`. -/
def fsExists (fs : FS) (p : String) : Bool :=
  fs.files.any (fun q => q.1 = p)

/-- The contents currently stored at path `p`, if any. -/
def fsRead (fs : FS) (p : String) : Option String :=
  (fs.files.find? (fun q => q.1 = p)).map (fun q => q.2)

/-- `os.remove(p)`. -/
def fsRemove (fs : FS) (p : String) : FS :=
  { files := fs.files.filter (fun q => q.1 ≠ p) }

/-- `open(p, "w")` followed by `json.dump(c, fp)`: create the file, or
truncate and rewrite it if it exists. -/
def fsWrite (fs : FS) (p c : String) : FS :=
  if fsExists fs p then
    { files := fs.files.map (fun q => if q.1 = p then (p, c) else q) }
  else
    { files := fs.files ++ [(p, c)] }

/-- `os.path.join(dir, name)` for a directory path without a trailing
slash. -/
def joinPath (d f : String) : String := d ++ "/" ++ f

/-- The save block of `main` (lines 163-176) for one item: if the
destination exists and `--force` was given, remove it and write; if it
exists without `--force`, log an error and fail (`none`, the `return 1`
path); otherwise just write. -/
def saveResult (fs : FS) (force : Bool) (path payload : String) :
    Option FS :=
  if fsExists fs path then
    if force then some (fsWrite (fsRemove fs path) path payload)
    else none
  else some (fsWrite fs path payload)

/-- The per-number loop of `main` (lines 155-176) with `--save-as` given:
fetch `https://.../api/tariff-info/<id>` (abstracted as `fetch`), save it to
`<save_as>/<number>.json`, and on a save refusal return `1` immediately,
leaving the remaining items unprocessed; falling off the end of the loop
returns Python's implicit `None`. -/
def mainLoop (fs : FS) (force : Bool) (saveAs : String)
    (fetch : String → String) :
    List (String × String) → FS × Option Nat
  | [] => (fs, none)
  | (phoneNumber, phoneId) :: rest =>
    let path := joinPath saveAs (phoneNumber ++ ".json")
    match saveResult fs force path (fetch phoneId) with
    | none => (fs, some 1)
    | some fs1 => mainLoop fs1 force saveAs fetch rest

/-- `sys.exit(main() or 1)` (line 180): Python's `x or 1` evaluates to `1`
whenever `x` is falsy, i.e. when `main` returned `None` (fell off the end,
a full success) or returned `0`; otherwise it evaluates to `x`. -/
def processExitCode (mainReturn : Option Nat) : Nat :=
  match mainReturn with
  | none => 1
  | some n => if n = 0 then 1 else n

set_option maxRecDepth 4096

/-- Looking up the key of a replace-in-place over an association list finds
the replacement exactly when the key was present. -/
theorem find_replace (m : List (String × String)) (k v : String) :
    (m.map (fun p => if p.1 = k then (k, v) else p)).find?
        (fun p => p.1 = k) =
      if m.any (fun p => p.1 = k) then some (k, v) else none := by
  induction m with
  | nil => simp
  | cons a t ih =>
    by_cases h : a.1 = k
    · rw [List.map_cons, if_pos h, List.find?_cons_of_pos _ (by simp),
        List.any_cons, decide_eq_true h, Bool.true_or]
      simp
    · rw [List.map_cons, if_neg h, List.find?_cons_of_neg _ (by simp [h]),
        List.any_cons, decide_eq_false h, Bool.false_or, ih]

/-- Replace-in-place at one key does not change lookups at another key. -/
theorem find_replace_ne (m : List (String × String)) (k v k' : String)
    (h : k' ≠ k) :
    (m.map (fun p => if p.1 = k then (k, v) else p)).find?
        (fun p => p.1 = k') =
      m.find? (fun p => p.1 = k') := by
  induction m with
  | nil => rfl
  | cons a t ih =>
    by_cases hk : a.1 = k
    · rw [List.map_cons, if_pos hk,
        List.find?_cons_of_neg _ (by simp [Ne.symm h]),
        List.find?_cons_of_neg _ (by simp [hk, Ne.symm h]), ih]
    · by_cases hp : a.1 = k'
      · rw [List.map_cons, if_neg hk,
          List.find?_cons_of_pos _ (by simp [hp]),
          List.find?_cons_of_pos _ (by simp [hp])]
      · rw [List.map_cons, if_neg hk,
          List.find?_cons_of_neg _ (by simp [hp]),
          List.find?_cons_of_neg _ (by simp [hp]), ih]

/-- Replace-in-place leaves the key list unchanged. -/
theorem keys_replace (m : List (String × String)) (k v : String) :
    (m.map (fun p => if p.1 = k then (k, v) else p)).map Prod.fst =
      m.map Prod.fst := by
  induction m with
  | nil => rfl
  | cons a t ih =>
    by_cases hk : a.1 = k
    · simp [hk, ih]
    · simp [hk, ih]

/-- Lookup after a Python dict assignment at the assigned key yields the
assigned value. -/
theorem dictLookup_dictInsert_self (m : List (String × String))
    (k v : String) :
    dictLookup (dictInsert m k v) k = some v := by
  unfold dictLookup dictInsert
  by_cases h : m.any (fun p => p.1 = k)
  · rw [if_pos h, find_replace]
    simp [h]
  · rw [if_neg h]
    have hn : m.find? (fun p => p.1 = k) = none := by
      simp only [List.find?_eq_none, decide_eq_true_eq]
      intro x hx hk
      exact h (List.any_eq_true.mpr ⟨x, hx, by simp [hk]⟩)
    simp [List.find?_append, hn]

/-- Lookup after a Python dict assignment at any other key is unchanged. -/
theorem dictLookup_dictInsert_ne (m : List (String × String))
    (k v k' : String) (h : k' ≠ k) :
    dictLookup (dictInsert m k v) k' = dictLookup m k' := by
  unfold dictLookup dictInsert
  by_cases ha : m.any (fun p => p.1 = k)
  · rw [if_pos ha, find_replace_ne m k v k' h]
  · rw [if_neg ha]
    simp [List.find?_append, Ne.symm h]

/-- A Python dict assignment keeps the keys pairwise distinct. -/
theorem keys_dictInsert_nodup (m : List (String × String)) (k v : String)
    (h : (m.map Prod.fst).Nodup) :
    ((dictInsert m k v).map Prod.fst).Nodup := by
  unfold dictInsert
  by_cases ha : m.any (fun p => p.1 = k)
  · rw [if_pos ha, keys_replace]
    exact h
  · rw [if_neg ha, List.map_append]
    rw [List.nodup_append]
    refine ⟨h, List.nodup_singleton k, ?_⟩
    intro x hx hk'
    simp only [List.map_cons, List.map_nil, List.mem_singleton] at hk'
    subst hk'
    rcases List.mem_map.mp hx with ⟨p, hp, hfst⟩
    exact ha (List.any_eq_true.mpr ⟨p, hp, by simp [hfst]⟩)

/-- Feeding a concatenation of event streams feeds them in sequence. -/
theorem feed_append (st : ClassState × MyHTMLParser)
    (a b : List HtmlEvent) :
    feed st (a ++ b) = feed (feed st a) b := by
  simp [feed, List.foldl_append]

/-- If no data event of a stream strips to the key `k`, feeding the stream
does not change what the shared dict holds at `k`. -/
theorem lookup_feed_preserved (evs : List HtmlEvent) :
    ∀ (st : ClassState × MyHTMLParser) (k : String),
      (∀ s, HtmlEvent.data s ∈ evs → pyStrip s ≠ k) →
      dictLookup (feed st evs).1.«matches» k =
        dictLookup st.1.«matches» k := by
  induction evs with
  | nil =>
    intro st k _
    rfl
  | cons e t ih =>
    intro st k h
    have step : dictLookup (processEvent st e).1.«matches» k =
        dictLookup st.1.«matches» k := by
      cases e with
      | starttag tag attrs => rfl
      | endtag tag => rfl
      | data s =>
        have hs : pyStrip s ≠ k := h s (by simp)
        rcases hsusp : st.2.suspected with _ | susp
        · simp [processEvent, MyHTMLParser.handle_data, hsusp]
        · by_cases hnum : pyIsNumeric (pyStrip s)
          · simp [processEvent, MyHTMLParser.handle_data, hsusp, hnum,
              dictLookup_dictInsert_ne _ _ _ _ (Ne.symm hs)]
          · simp [processEvent, MyHTMLParser.handle_data, hsusp, hnum]
    calc dictLookup (feed (processEvent st e) t).1.«matches» k
        = dictLookup (processEvent st e).1.«matches» k :=
          ih _ k (fun s hs => h s (List.mem_cons_of_mem _ hs))
      _ = dictLookup st.1.«matches» k := step

/-- Feeding any event stream keeps the keys of the shared dict pairwise
distinct. -/
theorem keys_feed_nodup (evs : List HtmlEvent) :
    ∀ st : ClassState × MyHTMLParser,
      (st.1.«matches».map Prod.fst).Nodup →
      ((feed st evs).1.«matches».map Prod.fst).Nodup := by
  induction evs with
  | nil =>
    intro st h
    exact h
  | cons e t ih =>
    intro st h
    refine ih _ ?_
    cases e with
    | starttag tag attrs => exact h
    | endtag tag => exact h
    | data s =>
      rcases hsusp : st.2.suspected with _ | susp
      · simpa [processEvent, MyHTMLParser.handle_data, hsusp] using h
      · by_cases hnum : pyIsNumeric (pyStrip s)
        · simp only [processEvent, MyHTMLParser.handle_data, hsusp, hnum,
            if_true, ite_not, ite_true]
          exact keys_dictInsert_nodup _ _ _ h
        · simpa [processEvent, MyHTMLParser.handle_data, hsusp, hnum]
            using h

/-- Feeding the fragment `<a href="/nastaveni-tarifu-a-sluzeb/123/x">456</a>`
from any state records `"456" -> "123"` in the shared dict. -/
theorem feed_frag456 (st : ClassState × MyHTMLParser) :
    (feed st frag456).1.«matches» =
      dictInsert st.1.«matches» "456" "123" := rfl

/-- Writing to a path just removed from the filesystem stores exactly the
written contents at that path. -/
theorem fsRead_fsWrite_fresh (fs : FS) (p c : String) :
    fsRead (fsWrite (fsRemove fs p) p c) p = some c := by
  unfold fsRead fsWrite fsRemove fsExists
  have hany : ((fs.files.filter (fun q => q.1 ≠ p)).any
      (fun q => q.1 = p)) = false := by
    simp only [List.any_eq_false, decide_eq_true_eq]
    intro x hx
    have hmem := List.mem_filter.mp hx
    simpa using hmem.2
  rw [if_neg (by simp [hany])]
  have hn : (fs.files.filter (fun q => q.1 ≠ p)).find?
      (fun q => q.1 = p) = none := by
    simp only [List.find?_eq_none, decide_eq_true_eq]
    intro x hx
    have hmem := List.mem_filter.mp hx
    simpa using hmem.2
  simp [List.find?_append, hn]

/-- C1: the spec says the process exits with code 0 on a full successful
run; line 180 is `sys.exit(main() or 1)`, which maps the `None` that `main`
returns after a full success to exit code 1.  This theorem evaluates the
code at a fully successful run (one discovered line, empty output
directory, every fetch and write succeeds): the loop finishes with `None`
yet the process exit code is 1, not 0. -/
theorem exit_code_is_one_on_full_success :
    (mainLoop ⟨[]⟩ false "out" (fun _ => "body") [("456", "123")]).2 =
      none ∧
    processExitCode
      (mainLoop ⟨[]⟩ false "out" (fun _ => "body") [("456", "123")]).2 =
      1 := by
  exact ⟨by decide, by decide⟩

/-- C2 counterexample: for the nested-element input
`<a href="/nastaveni-tarifu-a-sluzeb/123/x"><span>456</span></a>` the
scanner records nothing — the `span` start tag clears the pending
candidate — refuting the claim that a numeric string nested inside the
matching anchor is recorded against the anchor's identifier. -/
theorem nested_element_text_not_recorded :
    dictLookup
      (feed (initClassState, MyHTMLParser.new)
        [.starttag "a" [("href", "/nastaveni-tarifu-a-sluzeb/123/x")],
         .starttag "span" [], .data "456", .endtag "span",
         .endtag "a"]).1.«matches» "456" = none ∧
    (feed (initClassState, MyHTMLParser.new)
      [.starttag "a" [("href", "/nastaveni-tarifu-a-sluzeb/123/x")],
       .starttag "span" [], .data "456", .endtag "span",
       .endtag "a"]).1.«matches» = [] := by
  exact ⟨by decide, by decide⟩

/-- C2 (amended): a numeric string is recorded against the anchor's
identifier only while the candidate is pending, i.e. when its data event
arrives directly inside the anchor: every start tag other than a matching
anchor — including that of an element nested inside the anchor — clears
the pending candidate, and numeric text received while the candidate is
pending is recorded against it. -/
theorem recording_requires_pending_candidate
    (p : MyHTMLParser) (tag : String) (attrs : List (String × String))
    (cs : ClassState) (lineId s : String)
    (h1 : tag ≠ "a")
    (h2 : p.suspected = some lineId)
    (h3 : pyIsNumeric (pyStrip s) = true) :
    (p.handle_starttag tag attrs).suspected = none ∧
    dictLookup (p.handle_data cs s).1.«matches» (pyStrip s) =
      some lineId := by
  constructor
  · simp [MyHTMLParser.handle_starttag, h1]
  · simp [MyHTMLParser.handle_data, h2, h3, dictLookup_dictInsert_self]

/-- Witness for C2 (amended) at a concrete nested-element scenario. -/
theorem recording_requires_pending_candidate_witness :
    (MyHTMLParser.handle_starttag ⟨some "123"⟩ "span" []).suspected =
        none ∧
    dictLookup
      (MyHTMLParser.handle_data ⟨some "123"⟩ initClassState
        "456").1.«matches» (pyStrip "456") = some "123" :=
  recording_requires_pending_candidate ⟨some "123"⟩ "span" []
    initClassState "123" "456" (by decide) rfl (by decide)

/-- C3: in discovery mode, an existing destination file without `--force`
is left unchanged, `main` returns the failure code 1 at once and the
remaining pairs are not processed; with `--force` the run succeeds and the
destination ends up holding exactly the fetched payload. -/
theorem existing_file_refused_and_force_overwrites
    (fs : FS) (saveAs num lineId : String)
    (rest : List (String × String)) (fetch : String → String)
    (h : fsExists fs (joinPath saveAs (num ++ ".json")) = true) :
    mainLoop fs false saveAs fetch ((num, lineId) :: rest) =
      (fs, some 1) ∧
    (mainLoop fs true saveAs fetch [(num, lineId)]).2 = none ∧
    fsRead (mainLoop fs true saveAs fetch [(num, lineId)]).1
      (joinPath saveAs (num ++ ".json")) = some (fetch lineId) := by
  refine ⟨?_, ?_, ?_⟩
  · simp [mainLoop, saveResult, h]
  · simp [mainLoop, saveResult, h]
  · simp [mainLoop, saveResult, h, fsRead_fsWrite_fresh]

/-- Witness for C3 at a concrete one-file filesystem. -/
theorem existing_file_refused_and_force_overwrites_witness :
    mainLoop ⟨[("out/456.json", "old")]⟩ false "out" (fun _ => "body")
        [("456", "123")] = (⟨[("out/456.json", "old")]⟩, some 1) ∧
    (mainLoop ⟨[("out/456.json", "old")]⟩ true "out" (fun _ => "body")
        [("456", "123")]).2 = none ∧
    fsRead
      (mainLoop ⟨[("out/456.json", "old")]⟩ true "out" (fun _ => "body")
        [("456", "123")]).1 (joinPath "out" ("456" ++ ".json")) =
      some ((fun _ : String => "body") "123") :=
  existing_file_refused_and_force_overwrites ⟨[("out/456.json", "old")]⟩
    "out" "456" "123" [] (fun _ => "body") (by decide)

/-- C4: any event stream containing the events of the fragment
`<a href="/nastaveni-tarifu-a-sluzeb/123/x">456</a>`, with no later data
chunk stripping to `"456"`, ends with the shared dict mapping `"456"` to
`"123"`. -/
theorem fragment_records_mapping (pre post : List HtmlEvent)
    (h : ∀ s, HtmlEvent.data s ∈ post → pyStrip s ≠ "456") :
    dictLookup
      (feed (initClassState, MyHTMLParser.new)
        (pre ++ frag456 ++ post)).1.«matches» "456" = some "123" := by
  rw [feed_append, feed_append, lookup_feed_preserved post _ "456" h,
    feed_frag456]
  exact dictLookup_dictInsert_self _ _ _

/-- Witness for C4 with empty surrounding streams. -/
theorem fragment_records_mapping_witness :
    dictLookup
      (feed (initClassState, MyHTMLParser.new)
        ([] ++ frag456 ++ [])).1.«matches» "456" = some "123" :=
  fragment_records_mapping [] []
    (fun _ hs => absurd hs (List.not_mem_nil _))

/-- C5: an anchor whose href's third `/`-delimited segment is not numeric
never sets a pending candidate, and the concrete anchor
`<a href="/nastaveni-tarifu-a-sluzeb/abc/x">456</a>` contributes no
mapping entry; the handlers are total, so the anchor is skipped without
any error. -/
theorem non_numeric_segment_never_candidate
    (p : MyHTMLParser) (href : String)
    (h : pyIsNumeric (idSegment href) = false) :
    (p.handle_starttag "a" [("href", href)]).suspected = none ∧
    (feed (initClassState, MyHTMLParser.new)
      [.starttag "a" [("href", "/nastaveni-tarifu-a-sluzeb/abc/x")],
       .data "456", .endtag "a"]).1.«matches» = [] := by
  constructor
  · simp [MyHTMLParser.handle_starttag, h]
  · decide

/-- Witness for C5 at the spec's non-numeric href. -/
theorem non_numeric_segment_never_candidate_witness :
    (MyHTMLParser.handle_starttag MyHTMLParser.new "a"
        [("href", "/nastaveni-tarifu-a-sluzeb/abc/x")]).suspected =
      none ∧
    (feed (initClassState, MyHTMLParser.new)
      [.starttag "a" [("href", "/nastaveni-tarifu-a-sluzeb/abc/x")],
       .data "456", .endtag "a"]).1.«matches» = [] :=
  non_numeric_segment_never_candidate MyHTMLParser.new
    "/nastaveni-tarifu-a-sluzeb/abc/x" (by decide)

/-- C6: while a candidate is pending, a data chunk whose stripped text is
not numeric leaves both the pending candidate and the shared dict exactly
unchanged, so a later numeric chunk inside the same tag is still recorded
against the same candidate. -/
theorem non_numeric_data_preserves_state
    (cs : ClassState) (p : MyHTMLParser) (lineId s t : String)
    (h1 : p.suspected = some lineId)
    (h2 : pyIsNumeric (pyStrip s) = false)
    (h3 : pyIsNumeric (pyStrip t) = true) :
    p.handle_data cs s = (cs, p) ∧
    dictLookup (feed (cs, p) [.data s, .data t]).1.«matches»
      (pyStrip t) = some lineId := by
  have hA : p.handle_data cs s = (cs, p) := by
    simp [MyHTMLParser.handle_data, h1, h2]
  refine ⟨hA, ?_⟩
  have e1 : feed (cs, p) [.data s, .data t] = p.handle_data cs t := by
    show processEvent (processEvent (cs, p) (.data s)) (.data t) = _
    rw [show processEvent (cs, p) (.data s) = (cs, p) from hA]
    rfl
  rw [e1]
  simp [MyHTMLParser.handle_data, h1, h3, dictLookup_dictInsert_self]

/-- Witness for C6 with the chunks `"N/A"` then `"456"`. -/
theorem non_numeric_data_preserves_state_witness :
    MyHTMLParser.handle_data ⟨some "123"⟩ initClassState "N/A" =
        (initClassState, ⟨some "123"⟩) ∧
    dictLookup
      (feed (initClassState, (⟨some "123"⟩ : MyHTMLParser))
        [.data "N/A", .data "456"]).1.«matches» (pyStrip "456") =
      some "123" :=
  non_numeric_data_preserves_state initClassState ⟨some "123"⟩ "123"
    "N/A" "456" rfl (by decide) (by decide)

/-- C7: every end tag resets the scanner to idle (clears any pending
candidate), and the anchor
`<a href="/nastaveni-tarifu-a-sluzeb/123/x">N/A</a>`, whose text content
has no numeric chunk before the closing tag, contributes no mapping
entry. -/
theorem endtag_resets_and_non_numeric_anchor_contributes_nothing :
    (∀ (p : MyHTMLParser) (tag : String),
      (p.handle_endtag tag).suspected = none) ∧
    (feed (initClassState, MyHTMLParser.new)
      [.starttag "a" [("href", "/nastaveni-tarifu-a-sluzeb/123/x")],
       .data "N/A", .endtag "a"]).1.«matches» = [] :=
  ⟨fun _ _ => rfl, by decide⟩

/-- C8: when two anchors record the same phone-number text, the final dict
holds only the identifier of the later anchor, and after feeding any event
stream the keys of the shared dict are pairwise distinct. -/
theorem duplicate_number_last_wins_and_keys_unique :
    (feed (initClassState, MyHTMLParser.new)
      (frag456 ++
        [.starttag "a" [("href", "/nastaveni-tarifu-a-sluzeb/789/x")],
         .data "456", .endtag "a"])).1.«matches» = [("456", "789")] ∧
    ∀ evs : List HtmlEvent,
      ((feed (initClassState, MyHTMLParser.new) evs).1.«matches».map
        Prod.fst).Nodup :=
  ⟨by decide, fun evs => keys_feed_nodup evs _ (by simp [initClassState])⟩

/-- C9: a numeric chunk surrounded by whitespace is recorded under its
stripped form while the padded original key stays untouched, and the
concrete anchor fed `"  456  "` yields exactly the entry
`("456", "123")`. -/
theorem padded_numeric_recorded_trimmed
    (cs : ClassState) (p : MyHTMLParser) (lineId s : String)
    (h1 : p.suspected = some lineId)
    (h2 : pyIsNumeric (pyStrip s) = true)
    (h3 : pyStrip s ≠ s) :
    (dictLookup (p.handle_data cs s).1.«matches» (pyStrip s) =
        some lineId ∧
      dictLookup (p.handle_data cs s).1.«matches» s =
        dictLookup cs.«matches» s) ∧
    (feed (initClassState, MyHTMLParser.new)
      [.starttag "a" [("href", "/nastaveni-tarifu-a-sluzeb/123/x")],
       .data "  456  ", .endtag "a"]).1.«matches» = [("456", "123")] := by
  refine ⟨⟨?_, ?_⟩, by decide⟩
  · simp [MyHTMLParser.handle_data, h1, h2, dictLookup_dictInsert_self]
  · simp [MyHTMLParser.handle_data, h1, h2,
      dictLookup_dictInsert_ne _ _ _ _ (Ne.symm h3)]

/-- Witness for C9 at the padded chunk `"  456  "`. -/
theorem padded_numeric_recorded_trimmed_witness :
    (dictLookup
        (MyHTMLParser.handle_data ⟨some "123"⟩ initClassState
          "  456  ").1.«matches» (pyStrip "  456  ") = some "123" ∧
      dictLookup
        (MyHTMLParser.handle_data ⟨some "123"⟩ initClassState
          "  456  ").1.«matches» "  456  " =
        dictLookup initClassState.«matches» "  456  ") ∧
    (feed (initClassState, MyHTMLParser.new)
      [.starttag "a" [("href", "/nastaveni-tarifu-a-sluzeb/123/x")],
       .data "  456  ", .endtag "a"]).1.«matches» = [("456", "123")] :=
  padded_numeric_recorded_trimmed initClassState ⟨some "123"⟩ "123"
    "  456  " rfl (by decide) (by decide)

/-- C10: the `matches` dict is class-level shared state: constructing a
second `MyHTMLParser` instance keeps the dict accumulated by the first
(here both instances' entries end up in the one dict), and in general
feeding a stream through a freshly constructed instance continues from
the previous class state exactly as one longer stream with an interposed
end tag would. -/
theorem matches_shared_across_instances :
    (feed ((feed (initClassState, MyHTMLParser.new) frag456).1,
        MyHTMLParser.new)
      [.starttag "a" [("href", "/nastaveni-tarifu-a-sluzeb/321/x")],
       .data "789", .endtag "a"]).1.«matches» =
      [("456", "123"), ("789", "321")] ∧
    ∀ (evs1 evs2 : List HtmlEvent) (tag : String),
      (feed ((feed (initClassState, MyHTMLParser.new) evs1).1,
          MyHTMLParser.new) evs2).1 =
        (feed (initClassState, MyHTMLParser.new)
          (evs1 ++ HtmlEvent.endtag tag :: evs2)).1 := by
  refine ⟨by decide, fun evs1 evs2 tag => ?_⟩
  rw [show evs1 ++ HtmlEvent.endtag tag :: evs2 =
      (evs1 ++ [HtmlEvent.endtag tag]) ++ evs2 by simp]
  rw [feed_append, feed_append]
  rfl

end O2FamilyInfo

